import Mathlib

set_option autoImplicit false

/- A verification development for the codify plugin-tester harness. The
   definitions below are shallow embeddings of the TypeScript sources:
   src/test-utils.ts (the response correlator) and src/plugin-tester.ts
   (the lifecycle orchestrator, the sudo command relay and the
   PluginTester constructor). -/

/-- JavaScript primitive values as they occur in resource configurations and
message payloads. Object- or array-valued properties do not occur in any
comparison the harness itself performs, so primitives suffice. -/
inductive Value where
  | vStr (s : String)
  | vNum (n : Int)
  | vBool (b : Bool)
  | vNull
  | undef
  deriving DecidableEq

/-- A JavaScript object, as its ordered list of own enumerable properties
(the order Object.entries iterates). -/
abbrev JsObject := List (String × Value)

/-- A resource configuration is a schema-validated JavaScript object with a
declared type property plus arbitrary typed properties. -/
abbrev ResourceConfig := JsObject

/-- Property read o[k]: the stored value when the key is present, JavaScript
undefined otherwise. -/
def getField (o : JsObject) (k : String) : Value :=
  match o.find? (fun kv => kv.1 == k) with
  | some kv => kv.2
  | none => Value.undef

/-- JavaScript String(x) conversion for the primitive values above. -/
def jsString : Value → String
  | .vStr s => s
  | .vNum n => toString n
  | .vBool true => "true"
  | .vBool false => "false"
  | .vNull => "null"
  | .undef => "undefined"

/-- Decidable equality for Except values, so that concrete runs of the
embedded operations can be checked by evaluation. -/
instance {ε α : Type} [DecidableEq ε] [DecidableEq α] : DecidableEq (Except ε α) := fun x y =>
  match x, y with
  | .ok a, .ok b =>
    if h : a = b then isTrue (by rw [h]) else isFalse (by intro hc; cases hc; exact h rfl)
  | .ok _, .error _ => isFalse (by intro hc; cases hc)
  | .error _, .ok _ => isFalse (by intro hc; cases hc)
  | .error e, .error f =>
    if h : e = f then isTrue (by rw [h]) else isFalse (by intro hc; cases hc; exact h rfl)

/-- Message status enum from codify-schemas (MessageStatus). -/
inductive MessageStatus where
  | success
  | error
  deriving DecidableEq

/-- The IPC message envelope: a command name, an optional status and a
payload. Requests carry no status; responses do. -/
structure IpcMessage where
  cmd : String
  status : Option MessageStatus
  data : Value
  deriving DecidableEq

/-- State of the promise returned by sendMessageAndAwaitResponse. -/
inductive PromiseState where
  | pending
  | resolved (data : Value)
  | rejected (errMessage : String)
  deriving DecidableEq

/-- JavaScript promise resolution: only a pending promise settles; resolving
an already settled promise is a no-op. -/
def settleResolve (s : PromiseState) (v : Value) : PromiseState :=
  match s with
  | .pending => .resolved v
  | _ => s

/-- JavaScript promise rejection: only a pending promise settles; rejecting
an already settled promise is a no-op. The rejection value is an Error whose
message is the given string. -/
def settleReject (s : PromiseState) (msg : String) : PromiseState :=
  match s with
  | .pending => .rejected msg
  | _ => s

/-- The listener body registered by sendMessageAndAwaitResponse
(src/test-utils.ts lines 13 to 26), run on one schema-valid inbound message
for a request whose command is requestCmd: a message whose cmd differs from
requestCmd + "_Response" leaves the promise untouched; a matching message
resolves the promise with its data when status is SUCCESS and otherwise
rejects it with an Error carrying String(data). -/
def handleResponse (requestCmd : String) (s : PromiseState) (response : IpcMessage) : PromiseState :=
  if response.cmd = requestCmd ++ "_Response" then
    if response.status = some MessageStatus.success then settleResolve s response.data
    else settleReject s (jsString response.data)
  else s

/-- The listener applied to a finite sequence of schema-valid inbound
messages in arrival order. -/
def processMessages (requestCmd : String) (msgs : List IpcMessage) (s : PromiseState) : PromiseState :=
  msgs.foldl (handleResponse requestCmd) s

/-- One request's listener, together with the number of inbound messages it
has observed so far. process.on registers the listener permanently and
sendMessageAndAwaitResponse never removes it, so it keeps firing on every
later inbound message; the observed counter records each firing. -/
structure ObserverState where
  promise : PromiseState
  observed : Nat
  deriving DecidableEq

/-- One firing of the permanently registered listener. -/
def observeStep (requestCmd : String) (s : ObserverState) (m : IpcMessage) : ObserverState :=
  { promise := handleResponse requestCmd s.promise m, observed := s.observed + 1 }

/-- The permanently registered listener over a finite inbound sequence. -/
def observeMessages (requestCmd : String) (msgs : List IpcMessage) (s : ObserverState) : ObserverState :=
  msgs.foldl (observeStep requestCmd) s

/-- Spawn status enum from codify-schemas (SpawnStatus). -/
inductive SpawnStatus where
  | success
  | error
  deriving DecidableEq

/-- The result sudoSpawn resolves with: the combined captured output and the
exit status. -/
structure SudoResult where
  data : String
  status : SpawnStatus
  deriving DecidableEq

/-- Which stream a captured chunk arrived on. -/
inductive StreamSource where
  | stdout
  | stderr
  deriving DecidableEq

/-- The events sudoSpawn's listeners observe, in arrival order: a data chunk
on either stdio stream, or the close event carrying the child's exit code
(none models a null code, as when the child was killed by a signal). -/
inductive SpawnEvent where
  | chunk (source : StreamSource) (text : String)
  | close (code : Option Int)
  deriving DecidableEq

/-- The state sudoSpawn's closure accumulates: the output array and the
resolution state of the returned promise. -/
structure SpawnState where
  output : List String
  resolved : Option SudoResult
  deriving DecidableEq

/-- Exit code to status conversion from the close handler
(code === 0 ? SpawnStatus.SUCCESS : SpawnStatus.ERROR). -/
def sudoStatusOfCode (code : Option Int) : SpawnStatus :=
  if code = some 0 then .success else .error

/-- One listener firing inside sudoSpawn (src/plugin-tester.ts lines 304 to
320): a chunk from either stream is pushed onto the single shared output
array; the close event resolves the promise with the joined output and the
exit status. Live piping of the streams to the parent's stdio is an effect
outside the result value and is not modelled. -/
def sudoSpawnStep (s : SpawnState) (e : SpawnEvent) : SpawnState :=
  match e with
  | .chunk _ text => { s with output := s.output ++ [text] }
  | .close code =>
    match s.resolved with
    | some _ => s
    | none => { s with resolved := some ⟨String.join s.output, sudoStatusOfCode code⟩ }

/-- sudoSpawn's behaviour over a finite sequence of spawn events, starting
from an empty output array and an unsettled promise. -/
def sudoSpawnRun (events : List SpawnEvent) : SpawnState :=
  events.foldl sudoSpawnStep ⟨[], none⟩

/-- The externally visible effects of the PluginTester constructor, in
program order. -/
inductive ConstructEffect where
  | fork (pluginPath : String)
  | registerSudoListener
  deriving DecidableEq

/-- Node path.isAbsolute with posix semantics: a path is absolute when it
starts with a slash. This models the platform library call the constructor
makes. -/
def isAbsolute (p : String) : Bool :=
  match p.data with
  | [] => false
  | c :: _ => c == '/'

/-- The PluginTester constructor (src/plugin-tester.ts lines 40 to 60): a
path that is not absolute throws synchronously, before fork is reached;
otherwise the worker is forked and the sudo request listener is registered,
in that order. -/
def pluginTesterConstruct (pluginPath : String) : Except String (List ConstructEffect) :=
  if !isAbsolute pluginPath then
    Except.error "A fully qualified path must be supplied to PluginTester"
  else
    Except.ok [ConstructEffect.fork pluginPath, ConstructEffect.registerSudoListener]

/-- One resource definition from the initialize response. -/
structure ResourceDefinition where
  type : String
  deriving DecidableEq

/-- Initialize response payload (InitializeResponseData). -/
structure InitializeResponseData where
  resourceDefinitions : List ResourceDefinition
  deriving DecidableEq

/-- One per-resource validation result. -/
structure ResourceValidation where
  isValid : Bool
  deriving DecidableEq

/-- Validate response payload (ValidateResponseData). -/
structure ValidateResponseData where
  resourceValidations : List ResourceValidation
  deriving DecidableEq

/-- The resource operations of a plan (ResourceOperation). -/
inductive ResourceOperation where
  | CREATE
  | DESTROY
  | MODIFY
  | NOOP
  deriving DecidableEq

/-- Plan response payload (PlanResponseData): the fields the harness reads. -/
structure PlanResponseData where
  planId : String
  operation : ResourceOperation
  resourceType : String
  deriving DecidableEq

/-- Import response payload (ImportResponseData): a list of imported
records. -/
structure ImportResponseData where
  result : List JsObject
  deriving DecidableEq

/-- Plan request payload (PlanRequestData). -/
structure PlanRequestData where
  desired : Option ResourceConfig
  isStateful : Bool
  state : Option ResourceConfig
  deriving DecidableEq

/-- Apply request payload (ApplyRequestData). -/
structure ApplyRequestData where
  planId : String
  deriving DecidableEq

/-- Validate request payload (ValidateRequestData). -/
structure ValidateRequestData where
  configs : List ResourceConfig
  deriving DecidableEq

/-- Import request payload (ImportRequestData). -/
structure ImportRequestData where
  config : ResourceConfig
  deriving DecidableEq

/-- The errors fullTest and uninstall throw. Where the source embeds
JSON.stringify of the offending data into an Error message, the embedding
keeps the offending data itself, so that which data an error carries is
provable. -/
inductive TestError where
  | unsupportedConfigs (configs : List ResourceConfig) (initializeResult : InitializeResponseData)
  | invalidConfigs (validations : List ResourceValidation)
  | unsuccessfulPlans (plans : List PlanResponseData)
  | unsuccessfulImports (results : List ImportResponseData)
  | notDestroy (plan : PlanResponseData)
  | notDestroyed (plan : PlanResponseData)
  | workerError (message : String)
  | callbackError (message : String)
  deriving DecidableEq

/-- The orchestrator's effect type: each async method of PluginTester is a
function from worker state to either a thrown error or a value and the next
worker state. -/
def TestM (σ : Type) (α : Type) : Type := σ → Except TestError (α × σ)

/-- Return without touching the worker. -/
def TestM.pure {σ α : Type} (a : α) : TestM σ α := fun s => Except.ok (a, s)

/-- Sequencing of awaited calls: a thrown error aborts the remainder. -/
def TestM.bind {σ α β : Type} (x : TestM σ α) (f : α → TestM σ β) : TestM σ β := fun s =>
  match x s with
  | .ok (a, s') => f a s'
  | .error e => .error e

/-- A thrown Error. -/
def TestM.throw {σ α : Type} (e : TestError) : TestM σ α := fun _ => Except.error e

/-- The worker (plugin child process) as the orchestrator sees it through
sendMessageAndAwaitResponse: one method per protocol command, each a
state-passing function; an error outcome models an ERROR-status response
rejecting the awaited promise with that message. -/
structure Worker (σ : Type) where
  init : σ → Except String (InitializeResponseData × σ)
  validate : ValidateRequestData → σ → Except String (ValidateResponseData × σ)
  plan : PlanRequestData → σ → Except String (PlanResponseData × σ)
  apply : ApplyRequestData → σ → Except String (Unit × σ)
  importResource : ImportRequestData → σ → Except String (ImportResponseData × σ)

/-- Await one protocol round trip; a rejection becomes a thrown workerError. -/
def callWorker {σ α : Type} (call : σ → Except String (α × σ)) : TestM σ α := fun s =>
  match call s with
  | .ok (a, s') => .ok (a, s')
  | .error e => .error (TestError.workerError e)

/-- The plan request fullTest issues for a configuration, both in the first
plan round and in the validation replan round (src/plugin-tester.ts lines
92 to 98 and 112 to 118): desired is the configuration, state undefined,
isStateful false. -/
def planRequestFor (config : ResourceConfig) : PlanRequestData :=
  { desired := some config, isStateful := false, state := none }

/-- The destroy-oriented plan request uninstall issues (src/plugin-tester.ts
lines 163 to 169): desired undefined, isStateful true, state is the
configuration. -/
def destroyRequestFor (config : ResourceConfig) : PlanRequestData :=
  { desired := none, isStateful := true, state := some config }

/-- The verification plan request uninstall issues after destroying
(src/plugin-tester.ts lines 182 to 187): desired is the configuration,
isStateful true, state undefined. -/
def verifyRequestFor (config : ResourceConfig) : PlanRequestData :=
  { desired := some config, isStateful := true, state := none }

/-- One plan call per configuration, in input order, each awaited before the
next (the loops at src/plugin-tester.ts lines 91 to 98 and 111 to 118). -/
def planRound {σ : Type} (w : Worker σ) : List ResourceConfig → TestM σ (List PlanResponseData)
  | [] => TestM.pure []
  | config :: rest =>
    TestM.bind (callWorker (w.plan (planRequestFor config))) (fun p =>
    TestM.bind (planRound w rest) (fun ps =>
    TestM.pure (p :: ps)))

/-- Apply every plan, strictly sequentially, in order (src/plugin-tester.ts
lines 104 to 108). -/
def applyRound {σ : Type} (w : Worker σ) : List PlanResponseData → TestM σ Unit
  | [] => TestM.pure ()
  | plan :: rest =>
    TestM.bind (callWorker (w.apply { planId := plan.planId })) (fun _ =>
    applyRound w rest)

/-- Does the initialize result declare this configuration's type
(the rd.type === c.type test at src/plugin-tester.ts line 78)? -/
def supportsConfig (initializeResult : InitializeResponseData) (c : ResourceConfig) : Bool :=
  initializeResult.resourceDefinitions.any (fun rd => getField c "type" == Value.vStr rd.type)

/-- Initialize and reject unsupported configurations (src/plugin-tester.ts
lines 75 to 82). -/
def initPhase {σ : Type} (w : Worker σ) (configs : List ResourceConfig) : TestM σ InitializeResponseData :=
  TestM.bind (callWorker w.init) (fun initializeResult =>
    let unsupportedConfigs := configs.filter (fun c => !supportsConfig initializeResult c)
    if unsupportedConfigs.length > 0 then
      TestM.throw (TestError.unsupportedConfigs unsupportedConfigs initializeResult)
    else TestM.pure initializeResult)

/-- Validate all configurations in one batch and reject when any result
reports invalid (src/plugin-tester.ts lines 84 to 89). -/
def validatePhase {σ : Type} (w : Worker σ) (configs : List ResourceConfig) : TestM σ Unit :=
  TestM.bind (callWorker (w.validate { configs := configs })) (fun validate =>
    let invalidConfigs := validate.resourceValidations.filter (fun v => !v.isValid)
    if invalidConfigs.length > 0 then TestM.throw (TestError.invalidConfigs invalidConfigs)
    else TestM.pure ())

/-- Replan every original configuration and require every resulting
operation to be NOOP, throwing with the full list of non-NOOP validation
plans otherwise (src/plugin-tester.ts lines 110 to 125). -/
def convergencePhase {σ : Type} (w : Worker σ) (configs : List ResourceConfig) : TestM σ Unit :=
  TestM.bind (planRound w configs) (fun validationPlans =>
    let unsuccessfulPlans := validationPlans.filter (fun p => p.operation != ResourceOperation.NOOP)
    if unsuccessfulPlans.length > 0 then TestM.throw (TestError.unsuccessfulPlans unsuccessfulPlans)
    else TestM.pure ())

/-- Does this import result fail the round-trip check for this configuration
(src/plugin-tester.ts lines 137 to 139)? It fails when the result does not
hold exactly one record, or some property of the original configuration is
not strictly equal to the record's property of that key. -/
def importMismatch (config : ResourceConfig) (r : ImportResponseData) : Bool :=
  r.result.length != 1 ||
    config.any (fun kv => getField (r.result.headD []) kv.1 != kv.2)

/-- Run an import for each configuration, in order, pairing each
configuration with its import result (the loop at src/plugin-tester.ts
lines 133 to 142). -/
def importRound {σ : Type} (w : Worker σ) : List ResourceConfig → TestM σ (List (ResourceConfig × ImportResponseData))
  | [] => TestM.pure []
  | config :: rest =>
    TestM.bind (callWorker (w.importResource { config := config })) (fun r =>
    TestM.bind (importRound w rest) (fun pairs =>
    TestM.pure ((config, r) :: pairs)))

/-- The import phase of fullTest (src/plugin-tester.ts lines 131 to 147):
run every import, collect every mismatching import result, and throw with
the full list of mismatches when there is any; otherwise return all import
results. -/
def importPhase {σ : Type} (w : Worker σ) (configs : List ResourceConfig) : TestM σ (List ImportResponseData) :=
  TestM.bind (importRound w configs) (fun pairs =>
    let unsuccessfulImports := (pairs.filter (fun p => importMismatch p.1 p.2)).map Prod.snd
    if unsuccessfulImports.length > 0 then TestM.throw (TestError.unsuccessfulImports unsuccessfulImports)
    else TestM.pure (pairs.map Prod.snd))

/-- The options record of fullTest. Each callback is a caller-supplied
function whose thrown error aborts fullTest. -/
structure FullTestOptions where
  skipUninstall : Bool := false
  validatePlan : Option (List PlanResponseData → Except String Unit) := none
  validateApply : Option (List PlanResponseData → Except String Unit) := none
  validateImport : Option (List JsObject → Except String Unit) := none
  validateDestroy : Option (List PlanResponseData → Except String Unit) := none

/-- Run an optional caller-supplied callback; its thrown error aborts the
composite operation. -/
def runCallback {σ β : Type} (cb : Option (β → Except String Unit)) (arg : β) : TestM σ Unit :=
  match cb with
  | none => TestM.pure ()
  | some f => fun s =>
    match f arg with
    | .ok _ => .ok ((), s)
    | .error e => .error (TestError.callbackError e)

/-- Plan all configurations from existing state, in order
(src/plugin-tester.ts lines 161 to 169). -/
def uninstallPlanRound {σ : Type} (w : Worker σ) : List ResourceConfig → TestM σ (List PlanResponseData)
  | [] => TestM.pure []
  | config :: rest =>
    TestM.bind (callWorker (w.plan (destroyRequestFor config))) (fun p =>
    TestM.bind (uninstallPlanRound w rest) (fun ps =>
    TestM.pure (p :: ps)))

/-- For each plan in order: throw unless its operation is DESTROY, then
apply it (src/plugin-tester.ts lines 171 to 179). -/
def destroyRound {σ : Type} (w : Worker σ) : List PlanResponseData → TestM σ Unit
  | [] => TestM.pure ()
  | plan :: rest =>
    if plan.operation ≠ ResourceOperation.DESTROY then TestM.throw (TestError.notDestroy plan)
    else
      TestM.bind (callWorker (w.apply { planId := plan.planId })) (fun _ =>
      destroyRound w rest)

/-- For each configuration in order: plan it as desired state and throw a
destroy-verification error unless the result is CREATE
(src/plugin-tester.ts lines 181 to 194). -/
def destroyVerifyRound {σ : Type} (w : Worker σ) : List ResourceConfig → TestM σ Unit
  | [] => TestM.pure ()
  | config :: rest =>
    TestM.bind (callWorker (w.plan (verifyRequestFor config))) (fun validationPlan =>
      if validationPlan.operation ≠ ResourceOperation.CREATE then
        TestM.throw (TestError.notDestroyed validationPlan)
      else destroyVerifyRound w rest)

/-- PluginTester.uninstall (src/plugin-tester.ts lines 158 to 199). -/
def uninstall {σ : Type} (w : Worker σ) (configs : List ResourceConfig)
    (validateDestroy : Option (List PlanResponseData → Except String Unit)) : TestM σ Unit :=
  TestM.bind (uninstallPlanRound w configs) (fun plans =>
  TestM.bind (destroyRound w plans) (fun _ =>
  TestM.bind (destroyVerifyRound w configs) (fun _ =>
  runCallback validateDestroy plans)))

/-- The tail of fullTest after the convergence check (src/plugin-tester.ts
lines 127 to 155): the validateApply callback on the original plans,
the import phase, the validateImport callback on the records, then
uninstall of the reversed configurations unless suppressed. -/
def importAndFinish {σ : Type} (w : Worker σ) (configs : List ResourceConfig)
    (opts : FullTestOptions) (plans : List PlanResponseData) : TestM σ Unit :=
  TestM.bind (runCallback opts.validateApply plans) (fun _ =>
  TestM.bind (importPhase w configs) (fun importResults =>
  TestM.bind (runCallback opts.validateImport (importResults.map (fun r => r.result.headD []))) (fun _ =>
  if !opts.skipUninstall then uninstall w configs.reverse opts.validateDestroy
  else TestM.pure ())))

/-- PluginTester.fullTest (src/plugin-tester.ts lines 62 to 156): initialize
and reject unsupported types, validate, plan each configuration in order,
optional plan inspection, apply each plan in order, replan and require
NOOP everywhere, then the import phase and the optional uninstall. -/
def fullTest {σ : Type} (w : Worker σ) (configs : List ResourceConfig) (opts : FullTestOptions) : TestM σ Unit :=
  TestM.bind (initPhase w configs) (fun _ =>
  TestM.bind (validatePhase w configs) (fun _ =>
  TestM.bind (planRound w configs) (fun plans =>
  TestM.bind (runCallback opts.validatePlan plans) (fun _ =>
  TestM.bind (applyRound w plans) (fun _ =>
  TestM.bind (convergencePhase w configs) (fun _ =>
  importAndFinish w configs opts plans))))))

/-- A worker whose state logs every plan request it receives, answering plan
requests with a fixed response function; used to observe which plan
requests a round issues and in which order. -/
def logWorker (respond : PlanRequestData → PlanResponseData) : Worker (List PlanRequestData) where
  init := fun s => .ok (⟨[]⟩, s)
  validate := fun _ s => .ok (⟨[]⟩, s)
  plan := fun req s => .ok (respond req, s ++ [req])
  apply := fun _ s => .ok ((), s)
  importResource := fun _ s => .ok (⟨[]⟩, s)

/-- A concrete configuration used by the witnesses. -/
def cfgW : ResourceConfig :=
  [("type", Value.vStr "test"), ("propA", Value.vStr "a"), ("propB", Value.vNum 10)]

/-- The options record with no callbacks and uninstall suppressed. -/
def simpleOpts : FullTestOptions :=
  { skipUninstall := true, validatePlan := none, validateApply := none,
    validateImport := none, validateDestroy := none }

/-- A concrete stateless worker for the witnesses: it declares the type
test, validates everything, always plans NOOP, applies successfully,
and imports exactly the requested configuration back. -/
def workerNoop : Worker Nat where
  init := fun s => .ok (⟨[⟨"test"⟩]⟩, s)
  validate := fun _ s => .ok (⟨[⟨true⟩]⟩, s)
  plan := fun _ s => .ok (⟨"p1", ResourceOperation.NOOP, "test"⟩, s)
  apply := fun _ s => .ok ((), s)
  importResource := fun req s => .ok (⟨[req.config]⟩, s)

/-- A concrete worker for the uninstall witness: destroy-oriented plan
requests receive a DESTROY plan, desired-state plan requests receive a
CREATE plan, and every call advances a call counter. -/
def workerDestroy : Worker Nat where
  init := fun s => .ok (⟨[⟨"test"⟩]⟩, s)
  validate := fun _ s => .ok (⟨[]⟩, s)
  plan := fun req s =>
    if req.desired = none then .ok (⟨"d1", ResourceOperation.DESTROY, "test"⟩, s + 1)
    else .ok (⟨"v1", ResourceOperation.CREATE, "test"⟩, s + 1)
  apply := fun _ s => .ok ((), s + 1)
  importResource := fun _ s => .ok (⟨[]⟩, s)

/-- Helper: a message whose cmd is not the expected response name leaves the
promise untouched. -/
theorem handleResponse_unrelated (requestCmd : String) (s : PromiseState) (m : IpcMessage)
    (h : m.cmd ≠ requestCmd ++ "_Response") : handleResponse requestCmd s m = s := by
  unfold handleResponse
  rw [if_neg h]

/-- Helper: a matching response settles a pending promise. -/
theorem handleResponse_settles (requestCmd : String) (m : IpcMessage)
    (h : m.cmd = requestCmd ++ "_Response") :
    handleResponse requestCmd PromiseState.pending m ≠ PromiseState.pending := by
  unfold handleResponse
  rw [if_pos h]
  by_cases hs : m.status = some MessageStatus.success <;>
    simp [hs, settleResolve, settleReject]

/-- Helper: the listener never changes an already settled promise. -/
theorem handleResponse_settled (requestCmd : String) (s : PromiseState) (m : IpcMessage)
    (h : s ≠ PromiseState.pending) : handleResponse requestCmd s m = s := by
  unfold handleResponse
  cases s with
  | pending => exact absurd rfl h
  | resolved d => split
                  · split
                    · rfl
                    · rfl
                  · rfl
  | rejected e => split
                  · split
                    · rfl
                    · rfl
                  · rfl

/-- Helper: a settled promise is unchanged by any further message sequence. -/
theorem processMessages_settled (requestCmd : String) (msgs : List IpcMessage)
    (s : PromiseState) (h : s ≠ PromiseState.pending) :
    processMessages requestCmd msgs s = s := by
  induction msgs generalizing s with
  | nil => rfl
  | cons m ms ih =>
    unfold processMessages at *
    rw [List.foldl_cons, handleResponse_settled requestCmd s m h]
    exact ih s h

/-- Helper: a sequence of unrelated messages leaves any promise state
untouched. -/
theorem processMessages_unrelated (requestCmd : String) (msgs : List IpcMessage)
    (s : PromiseState) (h : ∀ m ∈ msgs, m.cmd ≠ requestCmd ++ "_Response") :
    processMessages requestCmd msgs s = s := by
  induction msgs generalizing s with
  | nil => rfl
  | cons m ms ih =>
    unfold processMessages at *
    rw [List.foldl_cons, handleResponse_unrelated requestCmd s m (h m (by simp))]
    exact ih s (fun m' hm' => h m' (by simp [hm']))

/-- C2: for a request with command X and any finite sequence of schema-valid
inbound messages, every message whose command is not exactly X + "_Response"
is ignored (the pending promise is neither resolved nor rejected), and the
first message whose command equals X + "_Response" settles the promise and
determines the final state, regardless of how many unrelated messages
precede it. -/
theorem correlator_ignoresUnrelatedMessages (X : String) (pre : List IpcMessage)
    (r : IpcMessage) (rest : List IpcMessage)
    (hpre : ∀ m ∈ pre, m.cmd ≠ X ++ "_Response") (hr : r.cmd = X ++ "_Response") :
    processMessages X pre PromiseState.pending = PromiseState.pending
    ∧ handleResponse X PromiseState.pending r ≠ PromiseState.pending
    ∧ processMessages X (pre ++ r :: rest) PromiseState.pending
        = handleResponse X PromiseState.pending r := by
  refine ⟨processMessages_unrelated X pre _ hpre, handleResponse_settles X r hr, ?_⟩
  unfold processMessages
  rw [List.foldl_append, List.foldl_cons]
  have h1 : List.foldl (handleResponse X) PromiseState.pending pre = PromiseState.pending :=
    processMessages_unrelated X pre _ hpre
  rw [h1]
  exact processMessages_settled X rest _ (handleResponse_settles X r hr)

/-- Witness for C2 at a concrete request and inbound sequence: two unrelated
messages are ignored, then the true plan response settles the promise. -/
theorem correlator_ignoresUnrelatedMessages_witness :
    processMessages "plan"
        [⟨"sudoRequest", none, Value.vStr "x"⟩,
         ⟨"apply_Response", some MessageStatus.success, Value.vStr "y"⟩]
        PromiseState.pending = PromiseState.pending
    ∧ handleResponse "plan" PromiseState.pending
        ⟨"plan_Response", some MessageStatus.success, Value.vStr "d"⟩ ≠ PromiseState.pending
    ∧ processMessages "plan"
        ([⟨"sudoRequest", none, Value.vStr "x"⟩,
          ⟨"apply_Response", some MessageStatus.success, Value.vStr "y"⟩] ++
          ⟨"plan_Response", some MessageStatus.success, Value.vStr "d"⟩ ::
          [⟨"plan_Response", some MessageStatus.error, Value.vStr "late"⟩])
        PromiseState.pending
        = handleResponse "plan" PromiseState.pending
            ⟨"plan_Response", some MessageStatus.success, Value.vStr "d"⟩ :=
  correlator_ignoresUnrelatedMessages "plan" _ _ _ (by decide) (by decide)

/-- C3: when the correlated response for a request with command X arrives on
a pending promise, a SUCCESS status resolves the promise with the response's
data field, and an ERROR status rejects it with an Error whose message is
the JavaScript string conversion of the data field. -/
theorem correlator_statusResolvesOrRejects (X : String) (m : IpcMessage)
    (hcmd : m.cmd = X ++ "_Response") :
    (m.status = some MessageStatus.success →
      handleResponse X PromiseState.pending m = PromiseState.resolved m.data)
    ∧ (m.status = some MessageStatus.error →
      handleResponse X PromiseState.pending m = PromiseState.rejected (jsString m.data)) := by
  constructor <;> intro hs <;> unfold handleResponse <;> rw [if_pos hcmd] <;>
    simp [hs, settleResolve, settleReject]

/-- Witness for C3 at concrete responses: a SUCCESS response resolves with
its data, an ERROR response rejects with the string form of its data. -/
theorem correlator_statusResolvesOrRejects_witness :
    handleResponse "apply" PromiseState.pending
        ⟨"apply_Response", some MessageStatus.success, Value.vStr "ok"⟩
      = PromiseState.resolved (Value.vStr "ok")
    ∧ handleResponse "apply" PromiseState.pending
        ⟨"apply_Response", some MessageStatus.error, Value.vStr "boom"⟩
      = PromiseState.rejected "boom" :=
  ⟨(correlator_statusResolvesOrRejects "apply" _ rfl).1 rfl,
   (correlator_statusResolvesOrRejects "apply" _ rfl).2 rfl⟩

/-- C10: the promise returned for a request with command X settles at most
once; once the first message with command X + "_Response" has settled it,
any later inbound messages, including further messages with that same
correlated command, leave the settled outcome unchanged. -/
theorem correlator_firstResponseWins (X : String) (r : IpcMessage) (rest : List IpcMessage)
    (s : PromiseState) (msgs : List IpcMessage) :
    (r.cmd = X ++ "_Response" →
      processMessages X (r :: rest) PromiseState.pending
        = handleResponse X PromiseState.pending r)
    ∧ (s ≠ PromiseState.pending → processMessages X msgs s = s) := by
  constructor
  · intro hr
    unfold processMessages
    rw [List.foldl_cons]
    exact processMessages_settled X rest _ (handleResponse_settles X r hr)
  · intro hs
    exact processMessages_settled X msgs s hs

/-- Witness for C10 at a concrete sequence: a second correlated response
with a different status and payload does not change the first outcome. -/
theorem correlator_firstResponseWins_witness :
    processMessages "apply"
        [⟨"apply_Response", some MessageStatus.success, Value.vStr "first"⟩,
         ⟨"apply_Response", some MessageStatus.error, Value.vStr "second"⟩]
        PromiseState.pending = PromiseState.resolved (Value.vStr "first") := by
  have h := (correlator_firstResponseWins "apply"
      ⟨"apply_Response", some MessageStatus.success, Value.vStr "first"⟩
      [⟨"apply_Response", some MessageStatus.error, Value.vStr "second"⟩]
      PromiseState.pending []).1 rfl
  rw [h]
  decide

/-- Counterexample to C5 as stated: after the correlated response has
settled the promise, the listener registered by process.on is never removed
and still observes later inbound messages. Here the first message settles
the promise, yet the observation count after a second, later message is 2
rather than 1: the request's observer did observe a message after
settlement, contradicting that the pending operation is retired so that no
further observation occurs. -/
theorem correlator_listenerNotRetired_counterexample :
    (observeMessages "apply"
        [⟨"apply_Response", some MessageStatus.success, Value.vStr "ok"⟩]
        ⟨PromiseState.pending, 0⟩).promise ≠ PromiseState.pending
    ∧ (observeMessages "apply"
        [⟨"apply_Response", some MessageStatus.success, Value.vStr "ok"⟩,
         ⟨"plan_Response", some MessageStatus.success, Value.vStr "later"⟩]
        ⟨PromiseState.pending, 0⟩).observed = 2 := by
  decide

/-- C5 as amended: once the correlated response settles the promise, the
settled outcome is final (later resolve and reject calls are no-ops), but
the pending operation is not retired: the message listener remains
registered and observes every later inbound message, merely without
changing the settled outcome. -/
theorem correlator_settledOutcomeFinalButListenerRemains (X : String)
    (s : ObserverState) (msgs : List IpcMessage) (h : s.promise ≠ PromiseState.pending) :
    (observeMessages X msgs s).promise = s.promise
    ∧ (observeMessages X msgs s).observed = s.observed + msgs.length := by
  induction msgs generalizing s with
  | nil => exact ⟨rfl, rfl⟩
  | cons m ms ih =>
    unfold observeMessages at *
    rw [List.foldl_cons]
    have hp : (observeStep X s m).promise = s.promise := by
      simp [observeStep, handleResponse_settled X s.promise m h]
    have hnew : (observeStep X s m).promise ≠ PromiseState.pending := by
      rw [hp]; exact h
    obtain ⟨h1, h2⟩ := ih (observeStep X s m) hnew
    refine ⟨by rw [h1, hp], ?_⟩
    rw [h2]
    simp [observeStep]
    omega

/-- Witness for the amended C5 at a settled observer: two later messages are
both observed while the resolved outcome is untouched. -/
theorem correlator_settledOutcomeFinalButListenerRemains_witness :
    (observeMessages "apply"
        [⟨"plan_Response", some MessageStatus.success, Value.vStr "x"⟩,
         ⟨"apply_Response", some MessageStatus.error, Value.vStr "y"⟩]
        ⟨PromiseState.resolved (Value.vStr "done"), 1⟩).promise
      = PromiseState.resolved (Value.vStr "done")
    ∧ (observeMessages "apply"
        [⟨"plan_Response", some MessageStatus.success, Value.vStr "x"⟩,
         ⟨"apply_Response", some MessageStatus.error, Value.vStr "y"⟩]
        ⟨PromiseState.resolved (Value.vStr "done"), 1⟩).observed = 3 :=
  correlator_settledOutcomeFinalButListenerRemains "apply"
    ⟨PromiseState.resolved (Value.vStr "done"), 1⟩ _ (by decide)

/-- Helper: chunk events append their texts to the output array, in arrival
order, and never touch the promise. -/
theorem sudoSpawn_chunks_append (chunks : List (StreamSource × String)) (s : SpawnState) :
    List.foldl sudoSpawnStep s (chunks.map (fun c => SpawnEvent.chunk c.1 c.2))
      = ⟨s.output ++ chunks.map Prod.snd, s.resolved⟩ := by
  induction chunks generalizing s with
  | nil => simp
  | cons c cs ih =>
    simp only [List.map_cons, List.foldl_cons]
    rw [show sudoSpawnStep s (SpawnEvent.chunk c.1 c.2)
          = ⟨s.output ++ [c.2], s.resolved⟩ from rfl]
    rw [ih]
    simp

/-- Helper: a run consisting of the captured chunks followed by the close
event ends with the joined output and the status derived from the exit
code. -/
theorem sudoSpawnRun_eq (chunks : List (StreamSource × String)) (code : Option Int) :
    sudoSpawnRun (chunks.map (fun c => SpawnEvent.chunk c.1 c.2) ++ [SpawnEvent.close code])
      = ⟨chunks.map Prod.snd,
         some ⟨String.join (chunks.map Prod.snd), sudoStatusOfCode code⟩⟩ := by
  unfold sudoSpawnRun
  rw [List.foldl_append, sudoSpawn_chunks_append]
  simp [sudoSpawnStep]

/-- C6: for every privileged command execution, when the spawned process
closes, the produced sudo result has status SUCCESS exactly when the exit
code is zero (ERROR otherwise), and its data field is the concatenation, in
arrival order, of all stdout and stderr chunks captured during execution. -/
theorem sudoSpawn_statusAndData (chunks : List (StreamSource × String)) (code : Option Int) :
    (sudoSpawnRun (chunks.map (fun c => SpawnEvent.chunk c.1 c.2)
        ++ [SpawnEvent.close code])).resolved
      = some ⟨String.join (chunks.map Prod.snd), sudoStatusOfCode code⟩
    ∧ (sudoStatusOfCode code = SpawnStatus.success ↔ code = some 0) := by
  constructor
  · rw [sudoSpawnRun_eq]
  · unfold sudoStatusOfCode
    by_cases h : code = some 0 <;> simp [h]

/-- Witness for C6 at a concrete execution: one stdout chunk and one stderr
chunk with exit code 0 produce a SUCCESS result whose data is the
concatenation of both chunks. -/
theorem sudoSpawn_statusAndData_witness :
    (sudoSpawnRun ([(StreamSource.stdout, "ok"), (StreamSource.stderr, "warn")].map
        (fun c => SpawnEvent.chunk c.1 c.2) ++ [SpawnEvent.close (some 0)])).resolved
      = some ⟨"okwarn", SpawnStatus.success⟩ :=
  ((sudoSpawn_statusAndData [(StreamSource.stdout, "ok"), (StreamSource.stderr, "warn")]
      (some 0)).1).trans (by decide)

/-- C7: when the privileged command fails to start, the shell that sudoSpawn
spawned reports this as a nonzero exit code through the close event, and
sudoSpawn settles its promise with an ERROR-status result that still carries
the captured output; it neither throws a harness-fatal error nor leaves the
promise unsettled. -/
theorem sudoSpawn_failedStartYieldsErrorStatus (chunks : List (StreamSource × String))
    (code : Option Int) (h : code ≠ some 0) :
    (sudoSpawnRun (chunks.map (fun c => SpawnEvent.chunk c.1 c.2)
        ++ [SpawnEvent.close code])).resolved
      = some ⟨String.join (chunks.map Prod.snd), SpawnStatus.error⟩ := by
  rw [sudoSpawnRun_eq]
  have hs : sudoStatusOfCode code = SpawnStatus.error := by
    unfold sudoStatusOfCode
    rw [if_neg h]
  rw [hs]

/-- Witness for C7 at a concrete failed start: a command-not-found report on
stderr with exit code 127 yields a settled ERROR result preserving the
output. -/
theorem sudoSpawn_failedStartYieldsErrorStatus_witness :
    (sudoSpawnRun ([(StreamSource.stderr, "zsh: command not found: foo")].map
        (fun c => SpawnEvent.chunk c.1 c.2) ++ [SpawnEvent.close (some 127)])).resolved
      = some ⟨"zsh: command not found: foo", SpawnStatus.error⟩ :=
  (sudoSpawn_failedStartYieldsErrorStatus [(StreamSource.stderr, "zsh: command not found: foo")]
      (some 127) (by decide)).trans (by decide)

/-- C9: constructing a PluginTester with a path that is not absolute throws
the configuration error synchronously, and in particular never reaches the
fork of the worker process; with an absolute path the constructor does not
throw and forks the worker, then registers the sudo listener. -/
theorem constructor_requiresAbsolutePath (p : String) :
    (isAbsolute p = false →
      pluginTesterConstruct p
          = Except.error "A fully qualified path must be supplied to PluginTester"
      ∧ ∀ effects, pluginTesterConstruct p ≠ Except.ok effects)
    ∧ (isAbsolute p = true →
      pluginTesterConstruct p
          = Except.ok [ConstructEffect.fork p, ConstructEffect.registerSudoListener]) := by
  constructor
  · intro h
    constructor
    · unfold pluginTesterConstruct
      rw [h]
      rfl
    · intro effects
      unfold pluginTesterConstruct
      rw [h]
      intro hcontra
      exact Except.noConfusion hcontra
  · intro h
    unfold pluginTesterConstruct
    rw [h]
    rfl

/-- Witness for C9 at concrete paths: a relative path is rejected, an
absolute path is accepted. -/
theorem constructor_requiresAbsolutePath_witness :
    pluginTesterConstruct "test-plugin.ts"
        = Except.error "A fully qualified path must be supplied to PluginTester"
    ∧ pluginTesterConstruct "/tmp/test-plugin.ts"
        = Except.ok [ConstructEffect.fork "/tmp/test-plugin.ts",
                     ConstructEffect.registerSudoListener] :=
  ⟨((constructor_requiresAbsolutePath "test-plugin.ts").1 (by decide)).1,
   (constructor_requiresAbsolutePath "/tmp/test-plugin.ts").2 (by decide)⟩

/-- Helper: sequencing after a successful awaited call continues with its
value and state. -/
theorem TestM.bind_ok {σ α β : Type} {x : TestM σ α} {f : α → TestM σ β} {s s' : σ} {a : α}
    (h : x s = Except.ok (a, s')) : TestM.bind x f s = f a s' := by
  unfold TestM.bind
  rw [h]

/-- Helper: a thrown error aborts the remainder of the sequence. -/
theorem TestM.bind_error {σ α β : Type} {x : TestM σ α} {f : α → TestM σ β} {s : σ}
    {e : TestError} (h : x s = Except.error e) : TestM.bind x f s = Except.error e := by
  unfold TestM.bind
  rw [h]

/-- Helper: an absent callback is a successful no-op. -/
theorem runCallback_none {σ β : Type} (arg : β) (s : σ) :
    runCallback (none : Option (β → Except String Unit)) arg s = Except.ok ((), s) := rfl

/-- Helper: against the logging worker, a plan round issues exactly one plan
request per configuration, in input order, with the configuration as the
desired state, and returns the responses in the same order. -/
theorem planRound_log (respond : PlanRequestData → PlanResponseData)
    (configs : List ResourceConfig) :
    ∀ trace : List PlanRequestData,
    planRound (logWorker respond) configs trace
      = Except.ok (configs.map (fun c => respond (planRequestFor c)),
                   trace ++ configs.map planRequestFor) := by
  induction configs with
  | nil =>
    intro trace
    simp [planRound, TestM.pure]
  | cons c cs ih =>
    intro trace
    unfold planRound
    rw [TestM.bind_ok (show callWorker ((logWorker respond).plan (planRequestFor c)) trace
        = Except.ok (respond (planRequestFor c), trace ++ [planRequestFor c]) from rfl)]
    rw [TestM.bind_ok (ih (trace ++ [planRequestFor c]))]
    simp [TestM.pure]

/-- C1: after applying every plan, fullTest replans every original
configuration in input order (shown against the logging worker: the replan
round issues exactly the per-configuration plan requests in input order);
whenever some validation plan has an operation other than NOOP, fullTest
throws the convergence error carrying the full list of non-NOOP validation
plans, and when all validation plans are NOOP it continues past the check
without error, into the remainder of the lifecycle. -/
theorem fullTest_replansAndRequiresNoop :
    (∀ (σ : Type) (w : Worker σ) (configs : List ResourceConfig) (opts : FullTestOptions)
       (s0 s1 s2 s3 s4 s5 : σ) (initRes : InitializeResponseData)
       (plans vps : List PlanResponseData),
      opts.validatePlan = none →
      initPhase w configs s0 = Except.ok (initRes, s1) →
      validatePhase w configs s1 = Except.ok ((), s2) →
      planRound w configs s2 = Except.ok (plans, s3) →
      applyRound w plans s3 = Except.ok ((), s4) →
      planRound w configs s4 = Except.ok (vps, s5) →
      (vps.filter (fun p => p.operation != ResourceOperation.NOOP) = [] →
        fullTest w configs opts s0 = importAndFinish w configs opts plans s5)
      ∧ (vps.filter (fun p => p.operation != ResourceOperation.NOOP) ≠ [] →
        fullTest w configs opts s0
          = Except.error (TestError.unsuccessfulPlans
              (vps.filter (fun p => p.operation != ResourceOperation.NOOP)))))
    ∧ (∀ (respond : PlanRequestData → PlanResponseData) (configs : List ResourceConfig)
         (trace : List PlanRequestData),
        planRound (logWorker respond) configs trace
          = Except.ok (configs.map (fun c => respond (planRequestFor c)),
                       trace ++ configs.map planRequestFor)) := by
  constructor
  · intro σ w configs opts s0 s1 s2 s3 s4 s5 initRes plans vps hcb h1 h2 h3 h4 h5
    constructor
    · intro hnil
      have hc : ¬ ((vps.filter (fun p => p.operation != ResourceOperation.NOOP)).length > 0) := by
        rw [hnil]
        simp
      have hconv : convergencePhase w configs s4 = Except.ok ((), s5) := by
        simp only [convergencePhase, TestM.bind_ok h5]
        rw [if_neg hc]
        rfl
      simp only [fullTest, TestM.bind_ok h1, TestM.bind_ok h2, TestM.bind_ok h3, hcb,
        TestM.bind_ok (runCallback_none plans s3), TestM.bind_ok h4, TestM.bind_ok hconv]
    · intro hne
      have hc : (vps.filter (fun p => p.operation != ResourceOperation.NOOP)).length > 0 :=
        List.length_pos.mpr hne
      have hconv : convergencePhase w configs s4
          = Except.error (TestError.unsuccessfulPlans
              (vps.filter (fun p => p.operation != ResourceOperation.NOOP))) := by
        simp only [convergencePhase, TestM.bind_ok h5]
        rw [if_pos hc]
        rfl
      simp only [fullTest, TestM.bind_ok h1, TestM.bind_ok h2, TestM.bind_ok h3, hcb,
        TestM.bind_ok (runCallback_none plans s3), TestM.bind_ok h4, TestM.bind_error hconv]
  · exact planRound_log

/-- Witness for C1 at a concrete worker whose replans all report NOOP:
fullTest passes the convergence check and continues, and the logged replan
round issues exactly the expected request in order. -/
theorem fullTest_replansAndRequiresNoop_witness :
    fullTest workerNoop [cfgW] simpleOpts 0
        = importAndFinish workerNoop [cfgW] simpleOpts
            [⟨"p1", ResourceOperation.NOOP, "test"⟩] 0
    ∧ planRound (logWorker (fun _ => ⟨"p1", ResourceOperation.NOOP, "test"⟩)) [cfgW] []
        = Except.ok ([⟨"p1", ResourceOperation.NOOP, "test"⟩], [planRequestFor cfgW]) := by
  constructor
  · exact (fullTest_replansAndRequiresNoop.1 Nat workerNoop [cfgW] simpleOpts
      0 0 0 0 0 0 ⟨[⟨"test"⟩]⟩ [⟨"p1", ResourceOperation.NOOP, "test"⟩]
      [⟨"p1", ResourceOperation.NOOP, "test"⟩]
      rfl (by decide) (by decide) (by decide) (by decide) (by decide)).1 (by decide)
  · exact (fullTest_replansAndRequiresNoop.2
      (fun _ => ⟨"p1", ResourceOperation.NOOP, "test"⟩) [cfgW] []).trans (by decide)

/-- Helper: after successfully checking and applying a prefix of all-DESTROY
plans, the destroy loop continues at the remaining plans from the state the
applies reached. -/
theorem destroyRound_prefix {σ : Type} (w : Worker σ) (pre : List PlanResponseData)
    (p : PlanResponseData) (post : List PlanResponseData) :
    ∀ s s' : σ, destroyRound w pre s = Except.ok ((), s') →
    destroyRound w (pre ++ p :: post) s = destroyRound w (p :: post) s' := by
  induction pre with
  | nil =>
    intro s s' h
    have hs : s = s' := by
      have h' : Except.ok ((), s) = (Except.ok ((), s') : Except TestError (Unit × σ)) := h
      cases h'
      rfl
    rw [List.nil_append, hs]
  | cons q qs ih =>
    intro s s' h
    have heq : ∀ rest : List PlanResponseData, destroyRound w (q :: rest)
        = if q.operation ≠ ResourceOperation.DESTROY then TestM.throw (TestError.notDestroy q)
          else TestM.bind (callWorker (w.apply ⟨q.planId⟩)) (fun _ => destroyRound w rest) :=
      fun _ => rfl
    by_cases hq : q.operation = ResourceOperation.DESTROY
    · have hnn : ¬ (q.operation ≠ ResourceOperation.DESTROY) := fun hh => hh hq
      rw [heq qs, if_neg hnn] at h
      cases happ : callWorker (w.apply ⟨q.planId⟩) s with
      | ok pair =>
        obtain ⟨u, t⟩ := pair
        rw [TestM.bind_ok happ] at h
        rw [List.cons_append, heq (qs ++ p :: post), if_neg hnn, TestM.bind_ok happ]
        exact ih t s' h
      | error e =>
        rw [TestM.bind_error happ] at h
        exact Except.noConfusion h
    · rw [heq qs, if_pos hq] at h
      exact Except.noConfusion h

/-- C4: uninstall first plans every configuration from existing state (the
configuration as observed state, desired undefined; embodied in the
destroy-oriented request of the planning round), then walks the plans in
order, throwing the destroy-mismatch error at the first plan whose
operation is not DESTROY and applying each DESTROY plan; once every plan is
checked and applied it replans each configuration as desired state, and
throws the destroy-verification error unless the resulting operation is
CREATE, continuing through the list otherwise. -/
theorem uninstall_requiresDestroyThenVerifiesCreate :
    (∀ (σ : Type) (w : Worker σ) (configs : List ResourceConfig) (s0 s1 : σ)
       (plans : List PlanResponseData),
      uninstallPlanRound w configs s0 = Except.ok (plans, s1) →
      ((∀ (pre : List PlanResponseData) (p : PlanResponseData)
          (post : List PlanResponseData) (s' : σ),
          plans = pre ++ p :: post →
          destroyRound w pre s1 = Except.ok ((), s') →
          p.operation ≠ ResourceOperation.DESTROY →
          uninstall w configs none s0 = Except.error (TestError.notDestroy p))
      ∧ (∀ s2 : σ, destroyRound w plans s1 = Except.ok ((), s2) →
          uninstall w configs none s0 = destroyVerifyRound w configs s2)))
    ∧ (∀ (σ : Type) (w : Worker σ) (c : ResourceConfig) (cs : List ResourceConfig)
         (s2 s3 : σ) (vp : PlanResponseData),
        callWorker (w.plan (verifyRequestFor c)) s2 = Except.ok (vp, s3) →
        ((vp.operation ≠ ResourceOperation.CREATE →
            destroyVerifyRound w (c :: cs) s2 = Except.error (TestError.notDestroyed vp))
        ∧ (vp.operation = ResourceOperation.CREATE →
            destroyVerifyRound w (c :: cs) s2 = destroyVerifyRound w cs s3))) := by
  constructor
  · intro σ w configs s0 s1 plans h1
    constructor
    · intro pre p post s' hsplit hpre hop
      have hplans : destroyRound w plans s1 = Except.error (TestError.notDestroy p) := by
        rw [hsplit, destroyRound_prefix w pre p post s1 s' hpre]
        unfold destroyRound
        rw [if_pos hop]
        rfl
      simp only [uninstall, TestM.bind_ok h1, TestM.bind_error hplans]
    · intro s2 h2
      simp only [uninstall, TestM.bind_ok h1, TestM.bind_ok h2]
      cases hd : destroyVerifyRound w configs s2 with
      | ok pair =>
        obtain ⟨u, t⟩ := pair
        rw [TestM.bind_ok hd]
        rfl
      | error e =>
        rw [TestM.bind_error hd]
  · intro σ w c cs s2 s3 vp h
    constructor
    · intro hop
      simp only [destroyVerifyRound, TestM.bind_ok h]
      rw [if_pos hop]
      rfl
    · intro hop
      simp only [destroyVerifyRound, TestM.bind_ok h]
      rw [if_neg (fun hh => hh hop)]

/-- Witness for C4 at a concrete worker: the destroy-oriented plan returns
DESTROY and is applied, after which uninstall proceeds to the verification
round, which accepts the CREATE verification plan. -/
theorem uninstall_requiresDestroyThenVerifiesCreate_witness :
    uninstall workerDestroy [cfgW] none 0 = destroyVerifyRound workerDestroy [cfgW] 2
    ∧ destroyVerifyRound workerDestroy [cfgW] 2 = Except.ok ((), 3) :=
  ⟨((uninstall_requiresDestroyThenVerifiesCreate.1 Nat workerDestroy [cfgW] 0 1
      [⟨"d1", ResourceOperation.DESTROY, "test"⟩] (by decide)).2 2 (by decide)),
   by decide⟩

/-- C8: in fullTest's import phase each configuration's import result fails
the round-trip check exactly when it does not hold exactly one record or
some field of the original configuration is not strictly equal to the
record's field of that key; all failing import results are collected, and
after all imports have run fullTest throws the import-mismatch error
carrying every mismatching import result, and succeeds past the import
phase only when there are none. -/
theorem fullTest_importRoundTrip :
    (∀ (σ : Type) (w : Worker σ) (configs : List ResourceConfig)
       (s0 s1 s2 s3 s4 s5 s6 : σ) (initRes : InitializeResponseData)
       (plans : List PlanResponseData)
       (pairs : List (ResourceConfig × ImportResponseData)),
      initPhase w configs s0 = Except.ok (initRes, s1) →
      validatePhase w configs s1 = Except.ok ((), s2) →
      planRound w configs s2 = Except.ok (plans, s3) →
      applyRound w plans s3 = Except.ok ((), s4) →
      convergencePhase w configs s4 = Except.ok ((), s5) →
      importRound w configs s5 = Except.ok (pairs, s6) →
      (pairs.filter (fun pr => importMismatch pr.1 pr.2) = [] →
         fullTest w configs simpleOpts s0 = Except.ok ((), s6))
      ∧ (pairs.filter (fun pr => importMismatch pr.1 pr.2) ≠ [] →
         fullTest w configs simpleOpts s0
           = Except.error (TestError.unsuccessfulImports
               ((pairs.filter (fun pr => importMismatch pr.1 pr.2)).map Prod.snd))))
    ∧ (∀ (config : ResourceConfig) (r : ImportResponseData),
        importMismatch config r = false ↔
          (r.result.length = 1
           ∧ ∀ kv ∈ config, getField (r.result.headD []) kv.1 = kv.2)) := by
  constructor
  · intro σ w configs s0 s1 s2 s3 s4 s5 s6 initRes plans pairs h1 h2 h3 h4 h5 h6
    constructor
    · intro hnil
      have hImp : importPhase w configs s5 = Except.ok (pairs.map Prod.snd, s6) := by
        simp only [importPhase, TestM.bind_ok h6]
        rw [if_neg (by rw [hnil]; simp)]
        rfl
      simp only [fullTest, TestM.bind_ok h1, TestM.bind_ok h2, TestM.bind_ok h3,
        show simpleOpts.validatePlan = none from rfl, TestM.bind_ok (runCallback_none plans s3),
        TestM.bind_ok h4, TestM.bind_ok h5, importAndFinish,
        show simpleOpts.validateApply = none from rfl, TestM.bind_ok (runCallback_none plans s5),
        TestM.bind_ok hImp]
      rfl
    · intro hne
      have hlen : ((pairs.filter (fun pr => importMismatch pr.1 pr.2)).map Prod.snd).length > 0 := by
        rw [List.length_map]
        exact List.length_pos.mpr hne
      have hImp : importPhase w configs s5
          = Except.error (TestError.unsuccessfulImports
              ((pairs.filter (fun pr => importMismatch pr.1 pr.2)).map Prod.snd)) := by
        simp only [importPhase, TestM.bind_ok h6]
        rw [if_pos hlen]
        rfl
      simp only [fullTest, TestM.bind_ok h1, TestM.bind_ok h2, TestM.bind_ok h3,
        show simpleOpts.validatePlan = none from rfl, TestM.bind_ok (runCallback_none plans s3),
        TestM.bind_ok h4, TestM.bind_ok h5, importAndFinish,
        show simpleOpts.validateApply = none from rfl, TestM.bind_ok (runCallback_none plans s5),
        TestM.bind_error hImp]
  · intro config r
    unfold importMismatch
    rw [Bool.or_eq_false_iff]
    constructor
    · intro h
      obtain ⟨hlen, hany⟩ := h
      refine ⟨by simpa using hlen, ?_⟩
      intro kv hkv
      have := List.any_eq_true.not.mp (by rw [hany]; simp)
      push_neg at this
      have hkv' := this kv hkv
      simpa using hkv'
    · intro h
      obtain ⟨hlen, hall⟩ := h
      constructor
      · simpa using hlen
      · rw [List.any_eq_false]
        intro kv hkv
        simpa using hall kv hkv

/-- Witness for C8 at a concrete worker whose import echoes the requested
configuration: the single imported record reproduces every field, so
fullTest completes without error. -/
theorem fullTest_importRoundTrip_witness :
    fullTest workerNoop [cfgW] simpleOpts 0 = Except.ok ((), 0)
    ∧ (importMismatch cfgW ⟨[cfgW]⟩ = false ↔
        ((⟨[cfgW]⟩ : ImportResponseData).result.length = 1
         ∧ ∀ kv ∈ cfgW, getField ((⟨[cfgW]⟩ : ImportResponseData).result.headD []) kv.1 = kv.2)) :=
  ⟨(fullTest_importRoundTrip.1 Nat workerNoop [cfgW] 0 0 0 0 0 0 0 ⟨[⟨"test"⟩]⟩
      [⟨"p1", ResourceOperation.NOOP, "test"⟩] [(cfgW, ⟨[cfgW]⟩)]
      (by decide) (by decide) (by decide) (by decide) (by decide) (by decide)).1 (by decide),
   fullTest_importRoundTrip.2 cfgW ⟨[cfgW]⟩⟩
